import Mathlib

/-!
Verification of the accuraTraveller scraping scripts against their
natural-language specification.  The scripts are shallowly embedded:
HTML documents become a tree type, the BeautifulSoup lookups used by the
scrapers become pure functions on that tree, and each scraping pipeline
(booking_scraper.py, kaggle_booking_scraper.py, weather_service.py,
llm_summarizer.py, airbnb.py, tripadvisor_scraper.py) becomes a pure
function from its fetched input to its produced value.
-/

namespace AccuraTraveller

/-! ## HTML document model

A parsed document is a tree of element and text nodes.  The `class`
attribute is kept separately as its token list, because BeautifulSoup
matches class predicates against each class token individually; all
other attributes are an association list. -/

inductive Node where
  | text (s : String)
  | elem (tag : String) (attrs : List (String × String)) (classes : List String)
      (children : List Node)

/-- Python str.strip(): drop leading and trailing whitespace. -/
def pyIsSpace (c : Char) : Bool :=
  c = ' ' || c = '\t' || c = '\n' || c = '\r' || c = '\x0b' || c = '\x0c'

def pyStrip (s : String) : String :=
  ⟨((s.data.dropWhile pyIsSpace).reverse.dropWhile pyIsSpace).reverse⟩

mutual

/-- All text fragments below a node, in document order
(`NavigableString`s visited by `get_text`). -/
def textFragments : Node → List String
  | .text s => [s]
  | .elem _ _ _ cs => textFragmentsList cs

def textFragmentsList : List Node → List String
  | [] => []
  | c :: rest => textFragments c ++ textFragmentsList rest

end

/-- BeautifulSoup `tag.get_text(strip=True)`: every text fragment is
stripped and the results are concatenated. -/
def getTextStrip (n : Node) : String :=
  String.join ((textFragments n).map pyStrip)

/-- BeautifulSoup `tag.text` / `tag.get_text()`: fragments concatenated
with no stripping. -/
def getTextRaw (n : Node) : String :=
  String.join (textFragments n)

mutual

/-- The strict descendants of a node in document order (the order in
which BeautifulSoup `find` and `find_all` visit them). -/
def descendants : Node → List Node
  | .text _ => []
  | .elem _ _ _ cs => descList cs

def descList : List Node → List Node
  | [] => []
  | c :: rest => c :: (descendants c ++ descList rest)

end

mutual

/-- Recursive depth-first search mirroring how BeautifulSoup `find`
walks a subtree: each child is tested before its own descendants. -/
def findFirstDesc (p : Node → Bool) : Node → Option Node
  | .text _ => none
  | .elem _ _ _ cs => findInList p cs

def findInList (p : Node → Bool) : List Node → Option Node
  | [] => none
  | c :: rest =>
    if p c then some c
    else
      match findFirstDesc p c with
      | some m => some m
      | none => findInList p rest

end

/-- BeautifulSoup `find_all`: every matching descendant, document order. -/
def findAllDesc (p : Node → Bool) (n : Node) : List Node :=
  (descendants n).filter p

mutual

/-- The recursive search visits exactly the descendant list in document
order: `find` returns the first matching descendant. -/
theorem findFirstDesc_eq_find? (p : Node → Bool) :
    ∀ n, findFirstDesc p n = (descendants n).find? p
  | .text s => by simp [findFirstDesc, descendants]
  | .elem tag attrs classes cs => by
    rw [findFirstDesc, descendants]
    exact findInList_eq_find? p cs

theorem findInList_eq_find? (p : Node → Bool) :
    ∀ cs, findInList p cs = (descList cs).find? p
  | [] => by simp [findInList, descList]
  | c :: rest => by
    rw [findInList, descList]
    rw [findFirstDesc_eq_find? p c, findInList_eq_find? p rest]
    by_cases hpc : p c
    · rw [List.find?_cons_of_pos _ hpc, if_pos hpc]
    · rw [if_neg hpc, List.find?_cons_of_neg _ hpc, List.find?_append]
      cases (descendants c).find? p <;> simp

end

/-! ## Locators

Each BeautifulSoup lookup the scrapers perform is one of a small number
of shapes; a `Locator` records the shape and its parameters. -/

/-- Python substring membership `needle in hay`. -/
def containsSub (hay needle : String) : Bool :=
  hay.data.tails.any (fun t => needle.data.isPrefixOf t)

/-- Python str.lower(), over the character list. -/
def pyLower (s : String) : String :=
  ⟨s.data.map Char.toLower⟩

/-- Python str.startswith, over the character list. -/
def pyStartsWith (s pre : String) : Bool :=
  pre.data.isPrefixOf s.data

/-- Python truthiness of a string: nonempty. -/
def pyTruthyStr (s : String) : Bool := s ≠ ""

/-- Python truthiness of an optional string: present and nonempty. -/
def pyTruthyOpt : Option String → Bool
  | none => false
  | some s => s ≠ ""

inductive Locator where
  /-- Tag name alone: `find(t)`. -/
  | tagOnly (t : String)
  /-- Tag name among a list, as in `find_all` over two tags. -/
  | tagIn (ts : List String)
  /-- Tag with an attribute equal to a value. -/
  | tagAttr (t a v : String)
  /-- Tag with an attribute present, any value: `find(t, a=True)`. -/
  | tagAttrPresent (t a : String)
  /-- Tag with an attribute whose truthy value, lowercased, contains the
  substring - the lambda form passed through `attrs`. -/
  | tagAttrContains (t a sub : String)
  /-- Tag with a class token whose lowercased text contains the
  substring - the lambda form passed through `class_`; BeautifulSoup
  applies it to each class token of the element. -/
  | tagClassContains (t sub : String)
  /-- Tag with a class token containing the substring, case sensitive. -/
  | tagClassContainsCS (t sub : String)
deriving Repr, DecidableEq

def Locator.matchesNode : Locator → Node → Bool
  | _, .text _ => false
  | .tagOnly t, .elem tg _ _ _ => tg == t
  | .tagIn ts, .elem tg _ _ _ => ts.contains tg
  | .tagAttr t a v, .elem tg attrs _ _ => tg == t && attrs.lookup a == some v
  | .tagAttrPresent t a, .elem tg attrs _ _ => tg == t && (attrs.lookup a).isSome
  | .tagAttrContains t a sub, .elem tg attrs _ _ =>
    tg == t &&
      (match attrs.lookup a with
       | some v => pyTruthyStr v && containsSub (pyLower v) sub
       | none => false)
  | .tagClassContains t sub, .elem tg _ classes _ =>
    tg == t && classes.any (fun c => pyTruthyStr c && containsSub (pyLower c) sub)
  | .tagClassContainsCS t sub, .elem tg _ classes _ =>
    tg == t && classes.any (fun c => pyTruthyStr c && containsSub c sub)

/-- One `find` call for a locator. -/
def findLoc (l : Locator) (n : Node) : Option Node :=
  findFirstDesc l.matchesNode n

/-- The fallback chain `find(...) or find(...) or ...` as written in the
scrapers.  A BeautifulSoup `Tag` is always truthy, so `or` moves on
exactly when `find` returned `None`. -/
def chainFind : List Locator → Node → Option Node
  | [], _ => none
  | l :: ls, n =>
    match findLoc l n with
    | some m => some m
    | none => chainFind ls n

/-- Field extraction: the stripped text of the matched element, absent
when no locator matched (the field keeps its initial `None`). -/
def extractText (locs : List Locator) (n : Node) : Option String :=
  (chainFind locs n).map getTextStrip

/-! ## booking_scraper.py: scrape_booking_hotels -/

/-- Python `tag.get(a)`: attribute lookup returning `None` when absent. -/
def attrGet (n : Node) (a : String) : Option String :=
  match n with
  | .text _ => none
  | .elem _ attrs _ _ => attrs.lookup a

/-- Python `a or b` on two optional strings: `b` when `a` is `None` or
empty. -/
def pyOrStr (a b : Option String) : Option String :=
  if pyTruthyOpt a then a else b

def nameLocators : List Locator :=
  [.tagAttr "div" "data-testid" "title", .tagOnly "h3", .tagClassContains "div" "title"]

def priceLocators : List Locator :=
  [.tagAttr "span" "data-testid" "price-and-discounted-price", .tagClassContains "div" "price"]

def ratingLocators : List Locator :=
  [.tagAttr "div" "data-testid" "review-score", .tagClassContains "div" "review-score"]

def reviewCountLocators : List Locator :=
  [.tagAttr "div" "data-testid" "review-score-text"]

def locationLocators : List Locator :=
  [.tagAttr "span" "data-testid" "address", .tagClassContains "span" "address"]

def distanceLocators : List Locator :=
  [.tagAttr "span" "data-testid" "distance", .tagClassContains "span" "distance"]

def amenitiesOf (card : Node) : List String :=
  match findLoc (.tagClassContains "div" "facility") card with
  | none => []
  | some container =>
    ((findAllDesc (Locator.tagIn ["span", "div"]).matchesNode container).map
      getTextStrip).filter pyTruthyStr

def imageUrlOf (card : Node) : Option String :=
  match findLoc (.tagOnly "img") card with
  | none => none
  | some img => pyOrStr (attrGet img "src") (attrGet img "data-src")

def linkOf (card : Node) : Option String :=
  match findLoc (.tagAttrPresent "a" "href") card with
  | none => none
  | some a =>
    match attrGet a "href" with
    | none => none
    | some href =>
      if pyStartsWith href "/" then some ("https://www.booking.com" ++ href)
      else if pyStartsWith href "http" then some href
      else none

/-- One hotel record; the fields appear in the order the script builds
its `hotel_data` dictionary.  `review_score` is initialised to `None`
and never assigned anywhere in the script. -/
structure HotelData where
  id : Nat
  name : Option String
  price : Option String
  rating : Option String
  review_score : Option String
  review_count : Option String
  location : Option String
  distance : Option String
  amenities : List String
  image_url : Option String
  link : Option String
deriving Repr, DecidableEq

def mkHotelData (idx : Nat) (card : Node) : HotelData where
  id := idx
  name := extractText nameLocators card
  price := extractText priceLocators card
  rating := extractText ratingLocators card
  review_score := none
  review_count := extractText reviewCountLocators card
  location := extractText locationLocators card
  distance := extractText distanceLocators card
  amenities := amenitiesOf card
  image_url := imageUrlOf card
  link := linkOf card

/-- The assembly loop: `enumerate(hotel_cards, 1)`, build the record,
append it only when `hotel_data[\x27name\x27]` is truthy. -/
def assembleBooking (cards : List Node) : List HotelData :=
  cards.enum.filterMap fun ic =>
    let h := mkHotelData (ic.1 + 1) ic.2
    if pyTruthyOpt h.name then some h else none

/-- The three-stage card selection fallback. -/
def findCards (doc : Node) : List Node :=
  let c1 := findAllDesc (Locator.tagAttr "div" "data-testid" "property-card").matchesNode doc
  if !c1.isEmpty then c1
  else
    let c2 := findAllDesc (Locator.tagClassContains "div" "property-card").matchesNode doc
    if !c2.isEmpty then c2
    else findAllDesc (Locator.tagAttrContains "div" "data-testid" "property").matchesNode doc

def titleOf (doc : Node) : String :=
  match findLoc (.tagOnly "title") doc with
  | some t => getTextStrip t
  | none => "No title found"

/-- The `result` dictionary of scrape_booking_hotels, field order as
written. -/
structure ResultSet where
  page_title : String
  url : String
  total_hotels : Nat
  scraped_at : String
  hotels : List HotelData
deriving Repr, DecidableEq

/-- The successful path of scrape_booking_hotels after the fetch, as a
function of the parsed document, the url argument and the clock reading
taken by `time.strftime`. -/
def runBooking (doc : Node) (url scrapedAt : String) : ResultSet :=
  let hotels := assembleBooking (findCards doc)
  { page_title := titleOf doc
    url := url
    total_hotels := hotels.length
    scraped_at := scrapedAt
    hotels := hotels }

/-! ## kaggle_booking_scraper.py

The module-level loop keeps every property card and substitutes the
placeholder string for absent fields; nothing is dropped. -/

structure KaggleHotel where
  name : String
  location : String
  price : String
  rating : String
deriving Repr, DecidableEq

/-- Python `element.text.strip()` when the element was found, the
placeholder string otherwise. -/
def kaggleField (l : Locator) (card : Node) : String :=
  match findLoc l card with
  | some e => pyStrip (getTextRaw e)
  | none => "N/A"

/-- Star rating: count the filled-star divs inside the rating container
(class token containing the substring e0397, case sensitively). -/
def kaggleRating (card : Node) : String :=
  match findLoc (.tagAttr "div" "data-testid" "rating-stars") card with
  | none => "N/A"
  | some container =>
    let filled := findAllDesc (Locator.tagClassContainsCS "div" "e0397").matchesNode container
    if !filled.isEmpty then toString filled.length ++ "/5" else "N/A"

def mkKaggleHotel (card : Node) : KaggleHotel where
  name := kaggleField (.tagAttr "div" "data-testid" "title") card
  location := kaggleField (.tagAttr "span" "data-testid" "address") card
  price := kaggleField (.tagAttr "span" "data-testid" "price-and-discounted-price") card
  rating := kaggleRating card

def assembleKaggle (cards : List Node) : List KaggleHotel :=
  cards.map mkKaggleHotel

def kaggleCards (doc : Node) : List Node :=
  findAllDesc (Locator.tagAttr "div" "data-testid" "property-card").matchesNode doc

/-- The `json_data` dictionary, field order as written. -/
structure KaggleResult where
  search_url : String
  total_hotels : Nat
  scraped_at : String
  hotels : List KaggleHotel
deriving Repr, DecidableEq

def runKaggle (doc : Node) (url scrapedAt : String) : KaggleResult :=
  let hs := assembleKaggle (kaggleCards doc)
  { search_url := url
    total_hotels := hs.length
    scraped_at := scrapedAt
    hotels := hs }

/-! ## JSON documents

The value written by `json.dump` and read back by `json.load`, as a
tree.  The scraper dictionaries hold strings, integers, `None`, lists
and nested dictionaries, nothing else. -/

inductive Json where
  | null
  | str (s : String)
  | num (n : Int)
  | arr (xs : List Json)
  | obj (fields : List (String × Json))

def jsonKeys : Json → List String
  | .obj fs => fs.map Prod.fst
  | _ => []

def jsonLookup (j : Json) (k : String) : Option Json :=
  match j with
  | .obj fs => fs.lookup k
  | _ => none

def optStrJson : Option String → Json
  | none => .null
  | some s => .str s

/-- One hotel dictionary as serialized, keys in insertion order. -/
def hotelJson (h : HotelData) : Json :=
  .obj [("id", .num (h.id : Int)),
        ("name", optStrJson h.name),
        ("price", optStrJson h.price),
        ("rating", optStrJson h.rating),
        ("review_score", optStrJson h.review_score),
        ("review_count", optStrJson h.review_count),
        ("location", optStrJson h.location),
        ("distance", optStrJson h.distance),
        ("amenities", .arr (h.amenities.map .str)),
        ("image_url", optStrJson h.image_url),
        ("link", optStrJson h.link)]

/-- The booking `result` dictionary as serialized: metadata keys in
insertion order, record list last. -/
def serializeResult (r : ResultSet) : Json :=
  .obj [("page_title", .str r.page_title),
        ("url", .str r.url),
        ("total_hotels", .num (r.total_hotels : Int)),
        ("scraped_at", .str r.scraped_at),
        ("hotels", .arr (r.hotels.map hotelJson))]

def kaggleHotelJson (h : KaggleHotel) : Json :=
  .obj [("name", .str h.name),
        ("location", .str h.location),
        ("price", .str h.price),
        ("rating", .str h.rating)]

def serializeKaggle (r : KaggleResult) : Json :=
  .obj [("search_url", .str r.search_url),
        ("total_hotels", .num (r.total_hotels : Int)),
        ("scraped_at", .str r.scraped_at),
        ("hotels", .arr (r.hotels.map kaggleHotelJson))]

/-! Reading the document back (`json.load` on what `json.dump` wrote,
interpreted into the same record shape). -/

def asStr : Json → Option String
  | .str s => some s
  | _ => none

def asNat : Json → Option Nat
  | .num n => some n.toNat
  | _ => none

def asOptStr : Json → Option (Option String)
  | .null => some none
  | .str s => some (some s)
  | _ => none

/-- Sequential traversal: all-or-nothing decoding of a list. -/
def mapOption {α β : Type} (f : α → Option β) : List α → Option (List β)
  | [] => some []
  | a :: as => do
    let b ← f a
    let bs ← mapOption f as
    pure (b :: bs)

def asStrList : Json → Option (List String)
  | .arr xs => mapOption asStr xs
  | _ => none

/-- Reading one hotel dictionary back.  The document written by the
sink carries the keys in insertion order, so the reader expects exactly
that shape. -/
def hotelFromJson : Json → Option HotelData
  | .obj [(k1, .num id), (k2, name), (k3, price), (k4, rating), (k5, review_score),
          (k6, review_count), (k7, location), (k8, distance), (k9, amenities),
          (k10, image_url), (k11, link)] =>
    if [k1, k2, k3, k4, k5, k6, k7, k8, k9, k10, k11] =
        ["id", "name", "price", "rating", "review_score", "review_count",
         "location", "distance", "amenities", "image_url", "link"] then do
      let name ← asOptStr name
      let price ← asOptStr price
      let rating ← asOptStr rating
      let review_score ← asOptStr review_score
      let review_count ← asOptStr review_count
      let location ← asOptStr location
      let distance ← asOptStr distance
      let amenities ← asStrList amenities
      let image_url ← asOptStr image_url
      let link ← asOptStr link
      pure { id := id.toNat, name, price, rating, review_score, review_count,
             location, distance, amenities, image_url, link }
    else none
  | _ => none

def hotelsFromJson : Json → Option (List HotelData)
  | .arr xs => mapOption hotelFromJson xs
  | _ => none

def deserializeResult : Json → Option ResultSet
  | .obj [(k1, .str page_title), (k2, .str url), (k3, .num total_hotels),
          (k4, .str scraped_at), (k5, hotels)] =>
    if [k1, k2, k3, k4, k5] = ["page_title", "url", "total_hotels", "scraped_at", "hotels"]
    then do
      let hotels ← hotelsFromJson hotels
      pure { page_title, url, total_hotels := total_hotels.toNat, scraped_at, hotels }
    else none
  | _ => none

/-! ## Rendering a document to bytes

`json.dump(..., indent=2, ensure_ascii=False)`: two-space indentation,
item separator a comma at end of line, key separator a colon and a
space, strings quoted with backslash escapes. -/

def escapeChar (c : Char) : String :=
  if c = '"' then "\\\""
  else if c = '\\' then "\\\\"
  else if c = '\n' then "\\n"
  else if c = '\t' then "\\t"
  else if c = '\r' then "\\r"
  else if c = '\x08' then "\\b"
  else if c = '\x0c' then "\\f"
  else String.singleton c

def renderString (s : String) : String :=
  "\"" ++ String.join (s.data.map escapeChar) ++ "\""

def spaces (n : Nat) : String :=
  String.mk (List.replicate n ' ')

mutual

def renderJson (ind : Nat) : Json → String
  | .null => "null"
  | .str s => renderString s
  | .num n => toString n
  | .arr xs =>
    match xs with
    | [] => "[]"
    | _ :: _ => "[\n" ++ renderItems (ind + 2) xs ++ "\n" ++ spaces ind ++ "]"
  | .obj fs =>
    match fs with
    | [] => "\x7b\x7d"
    | _ :: _ => "\x7b\n" ++ renderFields (ind + 2) fs ++ "\n" ++ spaces ind ++ "\x7d"

def renderItems (ind : Nat) : List Json → String
  | [] => ""
  | [x] => spaces ind ++ renderJson ind x
  | x :: y :: ys =>
    spaces ind ++ renderJson ind x ++ ",\n" ++ renderItems ind (y :: ys)

def renderFields (ind : Nat) : List (String × Json) → String
  | [] => ""
  | [(k, v)] => spaces ind ++ renderString k ++ ": " ++ renderJson ind v
  | (k, v) :: g :: gs =>
    spaces ind ++ renderString k ++ ": " ++ renderJson ind v ++ ",\n" ++
      renderFields ind (g :: gs)

end

/-! ## weather_service.py

The HTTP layer is an input: each client method takes the outcome of its
request (a transport-level error of the family caught by the
`except requests.exceptions.RequestException` clauses, or a parsed
response body).  Exceptions the method does not catch are returned in
the `Except` error position. -/

inductive ReqError where
  | timeout
  | connectionError
  | httpStatus (code : Nat)
deriving Repr, DecidableEq

/-- Exceptions outside the `RequestException` family. -/
inductive PyExc where
  | keyError (k : String)
  | indexError
  | osError
deriving Repr, DecidableEq

/-- One element of the geocoding response array. -/
structure RawLocation where
  name : Option String
  lat : Option Int
  lon : Option Int
  country : Option String
  state : Option String
deriving Repr, DecidableEq

/-- One formatted location dictionary. -/
structure GeoLocation where
  name : Option String
  lat : Option Int
  lon : Option Int
  country : Option String
  state : String
deriving Repr, DecidableEq

/-- WeatherService.get_coordinates: transport errors and the empty
response both become the empty list. -/
def get_coordinates (resp : Except ReqError (List RawLocation)) : List GeoLocation :=
  match resp with
  | .error _ => []
  | .ok data =>
    if data.isEmpty then []
    else data.map fun l =>
      { name := l.name
        lat := l.lat
        lon := l.lon
        country := l.country
        state := l.state.getD "" }

/-- Python `d[k]`: `KeyError` when the key is absent. -/
def pyIndex (j : Json) (k : String) : Except PyExc Json :=
  match jsonLookup j k with
  | some v => .ok v
  | none => .error (.keyError k)

/-- Python `d.get(k, default)`. -/
def pyGet (j : Json) (k : String) (d : Json) : Json :=
  (jsonLookup j k).getD d

/-- Python `xs[0]` on a parsed JSON array. -/
def pyFirst (j : Json) : Except PyExc Json :=
  match j with
  | .arr (x :: _) => .ok x
  | _ => .error .indexError

def tempUnitOf (units : String) : String :=
  if units = "metric" then "°C" else if units = "imperial" then "°F" else "K"

def windUnitOf (units : String) : String :=
  if units = "metric" then "m/s" else "mph"

/-- The `weather_info` dictionary.  Numeric and time-stamp values are
kept as the raw JSON values the code reads out of the response; the
strftime formatting and the unit conversions apply to them afterwards
and lose no access. -/
structure WeatherInfo where
  location : Json
  country : Json
  coord_lat : Json
  coord_lon : Json
  temp_current : Json
  temp_feels_like : Json
  temp_min : Json
  temp_max : Json
  temp_unit : String
  weather_main : Json
  weather_description : Json
  weather_icon : Json
  wind_speed : Json
  wind_deg : Json
  wind_unit : String
  humidity : Json
  pressure : Json
  visibility_raw : Json
  clouds : Json
  sunrise_raw : Json
  sunset_raw : Json
  dt_raw : Json

/-- WeatherService.get_weather on the outcome of its request.  Only the
`RequestException` family is caught; a `KeyError` or `IndexError`
raised while the `weather_info` dictionary is built propagates. -/
def get_weather (resp : Except ReqError Json) (units : String) :
    Except PyExc (Option WeatherInfo) :=
  match resp with
  | .error _ => .ok none
  | .ok data => do
    let name ← pyIndex data "name"
    let sys ← pyIndex data "sys"
    let country ← pyIndex sys "country"
    let coord ← pyIndex data "coord"
    let lat ← pyIndex coord "lat"
    let lon ← pyIndex coord "lon"
    let main ← pyIndex data "main"
    let temp ← pyIndex main "temp"
    let feels ← pyIndex main "feels_like"
    let tmin ← pyIndex main "temp_min"
    let tmax ← pyIndex main "temp_max"
    let weatherArr ← pyIndex data "weather"
    let w0 ← pyFirst weatherArr
    let wmain ← pyIndex w0 "main"
    let wdesc ← pyIndex w0 "description"
    let wicon ← pyIndex w0 "icon"
    let wind ← pyIndex data "wind"
    let wspeed ← pyIndex wind "speed"
    let humidity ← pyIndex main "humidity"
    let pressure ← pyIndex main "pressure"
    let clouds ← pyIndex data "clouds"
    let cloudsAll ← pyIndex clouds "all"
    let sunrise ← pyIndex sys "sunrise"
    let sunset ← pyIndex sys "sunset"
    let dt ← pyIndex data "dt"
    pure (some
      { location := name
        country := country
        coord_lat := lat
        coord_lon := lon
        temp_current := temp
        temp_feels_like := feels
        temp_min := tmin
        temp_max := tmax
        temp_unit := tempUnitOf units
        weather_main := wmain
        weather_description := wdesc
        weather_icon := wicon
        wind_speed := wspeed
        wind_deg := pyGet wind "deg" (.num 0)
        wind_unit := windUnitOf units
        humidity := humidity
        pressure := pressure
        visibility_raw := pyGet data "visibility" (.num 0)
        clouds := cloudsAll
        sunrise_raw := sunrise
        sunset_raw := sunset
        dt_raw := dt })

/-- The HTTP layer seen by get_weather_by_city: the geocoding response
and, per coordinate pair, the current-weather response. -/
structure WeatherEnv where
  geoResp : Except ReqError (List RawLocation)
  weatherResp : Option Int → Option Int → Except ReqError Json

/-- WeatherService.get_weather_by_city.  The second component counts
the current-weather requests issued. -/
def get_weather_by_city (env : WeatherEnv) (units : String) :
    Except PyExc (Option WeatherInfo) × Nat :=
  let locations := get_coordinates env.geoResp
  match locations with
  | [] => (.ok none, 0)
  | location :: _ =>
    (get_weather (env.weatherResp location.lat location.lon) units, 1)

/-! ## llm_summarizer.py: OllamaSummarizer.load_json -/

/-- What opening and parsing the file can come to. -/
inductive LoadOutcome where
  | fileNotFound
  | invalidJson
  | otherIoError
  | content (j : Json)

/-- load_json catches `FileNotFoundError` and `json.JSONDecodeError`
and returns `None`; any other error of the open or read propagates. -/
def load_json : LoadOutcome → Except PyExc (Option Json)
  | .fileNotFound => .ok none
  | .invalidJson => .ok none
  | .otherIoError => .error .osError
  | .content j => .ok (some j)

/-! ## The scrape entry point with its fetch boundary -/

/-- Outcome of the fetch step of scrape_booking_hotels. -/
inductive FetchOutcome where
  | ok (doc : Node)
  | httpError (code : Nat)
  | otherError

/-- scrape_booking_hotels: the whole body sits in one `try` whose
handlers cover `HTTPError` and then every `Exception`, each returning
`None`; no exception leaves the function. -/
def scrape_booking_hotels (f : FetchOutcome) (url scrapedAt : String) : Option ResultSet :=
  match f with
  | .ok doc => some (runBooking doc url scrapedAt)
  | .httpError _ => none
  | .otherError => none

/-! ## tripadvisor_scraper.py: TripAdvisorScraper

The scraper's class lookups use compiled regular expressions; every
pattern in the file is an alternation of plain substrings, possibly
with one gap (a dot-star) between two substrings, so that small
fragment of regular expressions is embedded directly.  The urllib
helpers, `json.loads` and the hash-ordered `list(set(...))` dedup are
library collaborators outside this repository and enter the model as an
explicit parameter. -/

/-- One alternative of a class-matching regular expression: a plain
substring, or two substrings with an arbitrary gap between them. -/
inductive ReAlt where
  | lit (s : String)
  | gap (a b : String)
deriving Repr, DecidableEq

def containsSubList (hay needle : List Char) : Bool :=
  hay.tails.any (needle.isPrefixOf ·)

/-- Python re.search of one alternative over a token. -/
def reSearchAlt (t : String) : ReAlt → Bool
  | .lit s => containsSub t s
  | .gap a b => t.data.tails.any fun suf =>
      a.data.isPrefixOf suf && containsSubList (suf.drop a.length) b.data

/-- Python re.search of an alternation; with the IGNORECASE flag the
token is lowercased and the alternatives are given lowercase. -/
def reSearch (alts : List ReAlt) (ci : Bool) (t : String) : Bool :=
  alts.any (reSearchAlt (if ci then pyLower t else t))

/-- BeautifulSoup find with a list of tag names and a class regular
expression: the expression is searched against each class token. -/
def matchTagsClassRe (ts : List String) (alts : List ReAlt) (ci : Bool) : Node → Bool
  | .text _ => false
  | .elem tg _ classes _ => ts.contains tg && classes.any (reSearch alts ci)

def classesOf : Node → List String
  | .text _ => []
  | .elem _ _ classes _ => classes

def tagOf : Node → String
  | .text _ => ""
  | .elem t _ _ _ => t

/-- BeautifulSoup `.string`: the sole text below a chain of
single-child tags, `None` otherwise. -/
def nodeString : Node → Option String
  | .text s => some s
  | .elem _ _ _ [c] => nodeString c
  | _ => none

/-- Assignment into a Python dictionary: an existing key keeps its
position and takes the new value, a new key goes to the end. -/
def dictInsert (m : List (String × String)) (k v : String) : List (String × String) :=
  if m.any (fun p => p.1 == k) then m.map fun p => if p.1 == k then (k, v) else p
  else m ++ [(k, v)]

/-- A single straight quote, to render Python str() of a list. -/
def pySQuote : String := String.singleton (Char.ofNat 39)

/-- Python str() of a list of strings (quote escaping aside, which the
class tokens at hand never need). -/
def pyStrOfList (xs : List String) : String :=
  "[" ++ ", ".intercalate (xs.map fun s => pySQuote ++ s ++ pySQuote) ++ "]"

/-- The text handed to TripAdvisorScraper._extract_rating from a
review: str() of the class list, a space, and the aria-label value.
The method then regex-captures a number out of this text and converts
it with float(); that floating-point step is outside the embedding, so
the model keeps the text itself. -/
def extract_rating_input (classList : List String) (ariaLabel : String) : String :=
  pyStrOfList classList ++ " " ++ ariaLabel

def pyRemoveCommas (s : String) : String :=
  ⟨s.data.filter (fun c => c ≠ ',')⟩

/-- The leftmost maximal digit run of the text, if any. -/
def firstDigitRun (cs : List Char) : Option (List Char) :=
  match cs.dropWhile (fun c => !c.isDigit) with
  | [] => none
  | c :: rest => some (c :: rest.takeWhile Char.isDigit)

def digitsToNat (ds : List Char) : Nat :=
  ds.foldl (fun n c => n * 10 + (c.toNat - 48)) 0

/-- TripAdvisorScraper._extract_number: drop commas, regex-capture the
first digit run, convert with int(). -/
def extract_number (text : String) : Option Nat :=
  (firstDigitRun (pyRemoveCommas text).data).map digitsToNat

/-- Library collaborators used by the tripadvisor scraper: URL
resolution and netloc extraction from urllib, JSON text parsing
(`none` standing for the decode error the bare except catches), and
the unordered `list(set(...))` dedup whose output order depends on the
interpreter hash seed. -/
structure TALib where
  urljoin : String → String → String
  netloc : String → String
  jsonLoads : String → Option Json
  pySet : List String → List String

/-- TripAdvisorScraper.extract_text_content: title, headings grouped by
level, nonempty paragraphs, list blocks with their items, and the meta
name/property-to-content dictionary. -/
def extract_text_content (soup : Node) : Json :=
  let title := match findFirstDesc (Locator.tagOnly "title").matchesNode soup with
    | some t => getTextStrip t
    | none => ""
  let headings := (List.range 6).flatMap fun i =>
    ((findAllDesc (Locator.tagOnly ("h" ++ toString (i + 1))).matchesNode soup).map
      getTextStrip).filterMap fun text =>
        if pyTruthyStr text then
          some (Json.obj [("level", .num (Int.ofNat (i + 1))), ("text", .str text)])
        else none
  let paragraphs :=
    ((findAllDesc (Locator.tagOnly "p").matchesNode soup).map getTextStrip).filter pyTruthyStr
  let lists := (findAllDesc (Locator.tagIn ["ul", "ol"]).matchesNode soup).filterMap fun lst =>
    let items := (findAllDesc (Locator.tagOnly "li").matchesNode lst).map getTextStrip
    if !items.isEmpty then
      some (Json.obj [("type", .str (tagOf lst)), ("items", .arr (items.map .str))])
    else none
  let metadata := (findAllDesc (Locator.tagOnly "meta").matchesNode soup).foldl
    (fun m meta =>
      let name := pyOrStr (attrGet meta "name") (attrGet meta "property")
      let content := attrGet meta "content"
      if pyTruthyOpt name && pyTruthyOpt content then
        dictInsert m (name.getD "") (content.getD "")
      else m) []
  .obj [("title", .str title),
        ("headings", .arr headings),
        ("paragraphs", .arr (paragraphs.map .str)),
        ("lists", .arr lists),
        ("metadata", .obj (metadata.map fun p => (p.1, Json.str p.2)))]

/-- The fields of one review dictionary, in assignment order; each key
is present only when its element was found. -/
def reviewFields (container : Node) : List (String × Json) :=
  (match findFirstDesc (matchTagsClassRe ["span", "div"]
      [.lit "rating", .lit "Rating", .lit "bubble"] false) container with
    | some e =>
      [("rating", Json.str (extract_rating_input (classesOf e)
        ((attrGet e "aria-label").getD "")))]
    | none => []) ++
  (match findFirstDesc (matchTagsClassRe ["div", "span", "a"]
      [.lit "title", .lit "Title"] false) container with
    | some e => [("title", Json.str (getTextStrip e))]
    | none => []) ++
  (match findFirstDesc (matchTagsClassRe ["div", "span", "p"]
      [.lit "text", .lit "Text", .lit "partial_entry"] false) container with
    | some e => [("text", Json.str (getTextStrip e))]
    | none => []) ++
  (match findFirstDesc (matchTagsClassRe ["span", "div"]
      [.lit "date", .lit "Date", .lit "ratingDate"] false) container with
    | some e => [("date", Json.str (getTextStrip e))]
    | none => []) ++
  (match findFirstDesc (matchTagsClassRe ["div", "span", "a"]
      [.lit "username", .lit "member", .lit "author"] false) container with
    | some e => [("author", Json.str (getTextStrip e))]
    | none => [])

/-- TripAdvisorScraper.extract_reviews: a dictionary per review
container, kept only when at least one field was found. -/
def extract_reviews (soup : Node) : Json :=
  .arr ((findAllDesc (matchTagsClassRe ["div", "article"]
      [.lit "review", .lit "Review"] false) soup).filterMap fun c =>
    match reviewFields c with
    | [] => none
    | fs => some (Json.obj fs))

/-- TripAdvisorScraper.extract_ratings_summary.  The overall rating
passes through _extract_rating (a float, outside the embedding: the
model keeps the element text handed to it); the review count passes
through _extract_number; the distribution dictionary is never
assigned. -/
def extract_ratings_summary (soup : Node) : Json :=
  let overall : Json := match findFirstDesc (matchTagsClassRe ["span", "div"]
      [.gap "overall" "rating", .gap "rating" "overall"] true) soup with
    | some e => .str (getTextStrip e)
    | none => .null
  let total : Json := match findFirstDesc (matchTagsClassRe ["span", "div"]
      [.gap "review" "count", .gap "count" "review", .lit "reviewcount"] true) soup with
    | some e =>
      match extract_number (getTextStrip e) with
      | some n => .num (Int.ofNat n)
      | none => .null
    | none => .null
  .obj [("overall_rating", overall),
        ("total_reviews", total),
        ("rating_distribution", .obj [])]

/-- TripAdvisorScraper.extract_amenities: texts of the amenity-class
elements, nonempty and under one hundred characters, deduplicated by
the unordered set round trip. -/
def extract_amenities (lib : TALib) (soup : Node) : Json :=
  let pre := ((findAllDesc (matchTagsClassRe ["div", "span", "li"]
      [.lit "amenity", .lit "amenities", .lit "feature"] true) soup).map
    getTextStrip).filter fun t => pyTruthyStr t && decide (t.length < 100)
  .arr ((lib.pySet pre).map .str)

/-- One pass of the ld+json loop: a script whose text parses to a
dictionary overwrites the address and the coordinates when it carries
those keys; parse failures are swallowed by the bare except. -/
def locationFold (lib : TALib) (loc : Json × Json) (sc : Node) : Json × Json :=
  match (nodeString sc).bind lib.jsonLoads with
  | some (.obj fields) =>
    (match fields.lookup "address" with
     | some v => v
     | none => loc.1,
     match fields.lookup "geo" with
     | some v => v
     | none => loc.2)
  | _ => loc

/-- TripAdvisorScraper.extract_location_info: the address-class element
text, then the ld+json scripts in document order; city and country are
never assigned. -/
def extract_location_info (lib : TALib) (soup : Node) : Json :=
  let addr0 : Json := match findFirstDesc (matchTagsClassRe ["span", "div", "address"]
      [.lit "address", .lit "location", .lit "street"] true) soup with
    | some e => .str (getTextStrip e)
    | none => .null
  let scripts :=
    findAllDesc (Locator.tagAttr "script" "type" "application/ld+json").matchesNode soup
  let final := scripts.foldl (locationFold lib) (addr0, Json.obj [])
  .obj [("address", final.1),
        ("city", .null),
        ("country", .null),
        ("coordinates", final.2)]

/-- TripAdvisorScraper.extract_links: anchor hrefs resolved against the
base url and split on whether the netloc mentions tripadvisor or is
empty, image srcs resolved likewise, each list deduplicated by the
unordered set round trip. -/
def extract_links (lib : TALib) (soup : Node) (base : String) : Json :=
  let resolved := (findAllDesc (Locator.tagAttrPresent "a" "href").matchesNode soup).filterMap
    fun a => (attrGet a "href").map (lib.urljoin base)
  let isInternal := fun u => containsSub (lib.netloc u) "tripadvisor" || lib.netloc u == ""
  let internal := resolved.filter isInternal
  let external := resolved.filter fun u => !isInternal u
  let images := (findAllDesc (Locator.tagAttrPresent "img" "src").matchesNode soup).filterMap
    fun im => (attrGet im "src").map (lib.urljoin base)
  .obj [("internal", .arr ((lib.pySet internal).map .str)),
        ("external", .arr ((lib.pySet external).map .str)),
        ("images", .arr ((lib.pySet images).map .str))]

/-- TripAdvisorScraper.fetch_page on the outcome of its request: the
`except requests.RequestException` clause turns a request-layer failure
into `None`. -/
def fetch_page (resp : Except ReqError Node) : Option Node :=
  match resp with
  | .ok doc => some doc
  | .error _ => none

/-- TripAdvisorScraper.scrape_page: no exception handling of its own.
A failed fetch yields the dictionary with the single error key; a
successful fetch yields the full extraction dictionary, keys in
insertion order. -/
def scrape_page (lib : TALib) (resp : Except ReqError Node) (url scrapedAt : String) : Json :=
  match fetch_page resp with
  | none => .obj [("error", .str "Failed to fetch page")]
  | some soup =>
    .obj [("url", .str url),
          ("scraped_at", .str scrapedAt),
          ("content", extract_text_content soup),
          ("reviews", extract_reviews soup),
          ("ratings", extract_ratings_summary soup),
          ("amenities", extract_amenities lib soup),
          ("location", extract_location_info lib soup),
          ("links", extract_links lib soup url)]

/-! ## example_usage.py: basic_scraping_example (thrillophilia) -/

/-- BeautifulSoup class_ given as a plain string: a single token
matches any one class token of the element; a string with spaces
matches the whole class attribute value exactly. -/
def classStrMatches (cls : String) (classes : List String) : Bool :=
  classes.contains cls || " ".intercalate classes == cls

def matchTagClass (t cls : String) : Node → Bool
  | .text _ => false
  | .elem tg _ classes _ => tg == t && classStrMatches cls classes

def matchTagClassAttr (t cls a v : String) : Node → Bool
  | .text _ => false
  | .elem tg attrs classes _ =>
    tg == t && classStrMatches cls classes && attrs.lookup a == some v

/-- BeautifulSoup `get_text(strip=True, separator=sep)`: stripped
fragments, empties dropped, joined with the separator. -/
def getTextStripSep (sep : String) (n : Node) : String :=
  sep.intercalate (((textFragments n).map pyStrip).filter pyTruthyStr)

/-- The page title: count span and title span inside the constructed
heading, combined and stripped. -/
def thrilloPageTitle (doc : Node) : String :=
  match findFirstDesc (matchTagClass "h1" "constructed-heading") doc with
  | none => "No title found"
  | some mh =>
    let count := match findFirstDesc (matchTagClass "span" "value") mh with
      | some cs => getTextStrip cs
      | none => ""
    let title := match findFirstDesc (matchTagClass "h3" "h3 title") mh with
      | none => "No title found"
      | some td =>
        match findFirstDesc (matchTagClass "span" "title") td with
        | some ts => getTextStrip ts
        | none => "No title found"
    pyStrip (count ++ " " ++ title)

structure ThrilloContent where
  paragraphs : List String
  spans : List String
  full_text : String
deriving Repr, DecidableEq

/-- One attraction dictionary; optional fields are the keys the loop
sets only when their element was found. -/
structure Attraction where
  id : String
  number : Option String
  title : String
  content : ThrilloContent
  image_url : Option String
  image_alt : Option String
  link : Option String
deriving Repr, DecidableEq

/-- The content block of one post card: paragraph and span texts when
any are nonempty, otherwise the whole text of the holder with a space
separator, otherwise the no-content marker. -/
def thrilloContentOf (card : Node) : ThrilloContent :=
  match findFirstDesc (matchTagClass "div" "text-holder read-more-wrap") card with
  | some th =>
    let ps := ((findAllDesc (Locator.tagOnly "p").matchesNode th).map
      getTextStrip).filter pyTruthyStr
    let ss := ((findAllDesc (Locator.tagOnly "span").matchesNode th).map
      getTextStrip).filter pyTruthyStr
    let allText := ps ++ ss
    if !allText.isEmpty then
      { paragraphs := ps, spans := ss, full_text := " ".intercalate allText }
    else
      { paragraphs := [], spans := [], full_text := getTextStripSep " " th }
  | none => { paragraphs := [], spans := [], full_text := "No content found" }

/-- Python `a or b` on two plain strings (both defaulted to empty). -/
def pyOrRawStr (a b : String) : String :=
  if a ≠ "" then a else b

def mkAttraction (card : Node) : Attraction :=
  let img := match findFirstDesc (matchTagClass "div" "image") card with
    | none => none
    | some imgDiv => findFirstDesc (Locator.tagOnly "img").matchesNode imgDiv
  { id := (attrGet card "data-id").getD "No ID"
    number := match findFirstDesc (matchTagClass "div" "left-side") card with
      | none => none
      | some ls => (findFirstDesc (matchTagClass "span" "number") ls).map getTextStrip
    title := match findFirstDesc (matchTagClass "h3" "h3 title") card with
      | some t => getTextStrip t
      | none => "No title found"
    content := thrilloContentOf card
    image_url := img.map fun im =>
      pyOrRawStr ((attrGet im "src").getD "") ((attrGet im "data-src").getD "")
    image_alt := img.map fun im => (attrGet im "alt").getD ""
    link := match findFirstDesc (Locator.tagOnly "a").matchesNode card with
      | none => none
      | some a =>
        let href := (attrGet a "href").getD ""
        if href ≠ "" then
          some (if pyStartsWith href "/" then "https://www.thrillophilia.com" ++ href else href)
        else none }

/-- The assembly loop: all post cards inside the article-body post
holder, one attraction each; no post holder, no attractions. -/
def attractionsOf (doc : Node) : List Attraction :=
  match findFirstDesc (matchTagClassAttr "div" "post-holder" "itemprop" "articleBody") doc with
  | none => []
  | some ph =>
    (findAllDesc (matchTagClass "div" "base-block main-card-container content-main-card") ph).map
      mkAttraction

def contentJson (c : ThrilloContent) : Json :=
  .obj [("paragraphs", .arr (c.paragraphs.map .str)),
        ("spans", .arr (c.spans.map .str)),
        ("full_text", .str c.full_text)]

/-- A dictionary key present only when its value was set. -/
def optField (k : String) (v : Option String) : List (String × Json) :=
  match v with
  | none => []
  | some s => [(k, .str s)]

def attractionJson (a : Attraction) : Json :=
  .obj ([("id", Json.str a.id)] ++ optField "number" a.number ++
    [("title", Json.str a.title), ("content", contentJson a.content)] ++
    optField "image_url" a.image_url ++ optField "image_alt" a.image_alt ++
    optField "link" a.link)

/-- The `json_data` dictionary written by basic_scraping_example, field
order as written (the script writes it only when the post holder was
found; with no post holder the attraction list is empty). -/
def thrilloJsonData (doc : Node) (url scrapedAt : String) : Json :=
  let attractions := attractionsOf doc
  .obj [("page_title", .str (thrilloPageTitle doc)),
        ("url", .str url),
        ("total_attractions", .num (Int.ofNat attractions.length)),
        ("scraped_at", .str scrapedAt),
        ("attractions", .arr (attractions.map attractionJson))]

/-! ## Network request sites

One trace per request site in the repository, transcribed from the
source: the `time.sleep` calls executed before the request and the
`timeout` argument of the request itself. -/

inductive NetEvent where
  | sleep (seconds : Nat)
  | request (timeout : Option Nat)
deriving Repr, DecidableEq

/-- booking_scraper.py lines 42-46. -/
def bookingSearchTrace : List NetEvent := [.sleep 2, .request (some 10)]
/-- booking_scraper.py lines 241-242 (scrape_hotel_details). -/
def bookingDetailsTrace : List NetEvent := [.sleep 2, .request (some 10)]
/-- example_usage.py lines 32-35 (thrillophilia fetch). -/
def thrillophiliaTrace : List NetEvent := [.sleep 2, .request (some 10)]
/-- tripadvisor_scraper.py lines 51-52 (default delay 2.0). -/
def tripadvisorTrace : List NetEvent := [.sleep 2, .request (some 10)]
/-- kaggle_booking_scraper.py line 12: no sleep, no timeout argument. -/
def kaggleTrace : List NetEvent := [.request none]
/-- airbnb.py line 12: no sleep, no timeout argument. -/
def airbnbTrace : List NetEvent := [.request none]
/-- weather_service.py line 62 (geocoding). -/
def weatherGeocodingTrace : List NetEvent := [.request (some 10)]
/-- weather_service.py line 112 (current weather). -/
def weatherCurrentTrace : List NetEvent := [.request (some 10)]
/-- weather_service.py line 207 (forecast). -/
def weatherForecastTrace : List NetEvent := [.request (some 10)]

def allRequestTraces : List (List NetEvent) :=
  [bookingSearchTrace, bookingDetailsTrace, thrillophiliaTrace, tripadvisorTrace,
   kaggleTrace, airbnbTrace, weatherGeocodingTrace, weatherCurrentTrace,
   weatherForecastTrace]

def isRequest : NetEvent → Bool
  | .request _ => true
  | _ => false

def isSleep : NetEvent → Bool
  | .sleep _ => true
  | _ => false

/-- Every request of the trace carries a ten-second timeout. -/
def timeoutsOk (tr : List NetEvent) : Bool :=
  tr.all fun e =>
    match e with
    | .request t => t == some 10
    | _ => true

/-- Every request of the trace is immediately preceded by a sleep. -/
def delaysOk (tr : List NetEvent) : Bool :=
  (match tr.head? with
   | some e => !isRequest e
   | none => true) &&
  (tr.zip tr.tail).all fun ab => !isRequest ab.2 || isSleep ab.1

/-- The trace contains a request with no timeout argument. -/
def hasUntimedRequest (tr : List NetEvent) : Bool :=
  tr.any fun e =>
    match e with
    | .request none => true
    | _ => false

/-! ## Example documents -/

/-- A card whose only name-bearing element is an `h3`. -/
def h3Card : Node :=
  .elem "div" [] [] [.elem "h3" [] [] [.text " Sea View Hotel "]]

def titleDiv (s : String) : Node :=
  .elem "div" [("data-testid", "title")] [] [.text s]

def card1 : Node :=
  .elem "div" [("data-testid", "property-card")] [] [titleDiv "Hotel One"]

/-- A card with an address but no title element of any recognised shape. -/
def card2 : Node :=
  .elem "div" [("data-testid", "property-card")] []
    [.elem "span" [("data-testid", "address")] [] [.text "Calangute"]]

def card3 : Node :=
  .elem "div" [("data-testid", "property-card")] [] [titleDiv "Hotel Three"]

def threeCardDoc : Node :=
  .elem "html" [] []
    [.elem "title" [] [] [.text "Hotels"], card1, card2, card3]

/-- A page with no property cards at all. -/
def emptyDoc : Node := .elem "html" [] [] []

/-! ## Helper lemmas -/

theorem chainFind_eq_findSome? (locs : List Locator) (n : Node) :
    chainFind locs n = locs.findSome? fun l => (descendants n).find? l.matchesNode := by
  induction locs with
  | nil => simp [chainFind]
  | cons l ls ih =>
    rw [chainFind, List.findSome?_cons, findLoc, findFirstDesc_eq_find? l.matchesNode n]
    cases (descendants n).find? l.matchesNode <;> simp [ih]

theorem filterMap_if_eq_filter_map {α β : Type} (f : α → β) (p : β → Bool) (l : List α) :
    (l.filterMap fun a => if p (f a) then some (f a) else none) =
      (l.map f).filter p := by
  induction l with
  | nil => rfl
  | cons a l ih =>
    by_cases h : p (f a) <;>
      simp [List.filterMap_cons, List.filter_cons, h, ih]

theorem le_fst_of_mem_enumFrom {α : Type} (k : Nat) (l : List α) :
    ∀ x ∈ List.enumFrom k l, k ≤ x.1 := by
  induction l generalizing k with
  | nil => simp
  | cons a l ih =>
    intro x hx
    rcases List.mem_cons.mp hx with hx | hx
    · simp [hx]
    · exact Nat.le_of_succ_le (ih (k + 1) x hx)

theorem pairwise_fst_lt_enumFrom {α : Type} (k : Nat) (l : List α) :
    (List.enumFrom k l).Pairwise fun a b => a.1 < b.1 := by
  induction l generalizing k with
  | nil => simp
  | cons a l ih =>
    refine List.Pairwise.cons ?_ (ih (k + 1))
    intro x hx
    exact Nat.lt_of_lt_of_le (Nat.lt_succ_self k) (le_fst_of_mem_enumFrom (k + 1) l x hx)

/-! ## Claims -/

/-- C1 (confirmed).  The fallback chain returns the trimmed text of
the first locator in the list that matches a descendant of the node,
the match being the first matching descendant in document order
(`List.find?` over the document-order descendant list); it returns
`none` when no locator matches; and on a node containing only an `h3`,
the chain `[by-data-testid title, by-tag h3]` returns the stripped `h3`
text. -/
theorem field_extractor_first_locator :
    (∀ locs n, extractText locs n =
      (locs.findSome? fun l => (descendants n).find? l.matchesNode).map getTextStrip) ∧
    (∀ locs n, (∀ l ∈ locs, ∀ d ∈ descendants n, l.matchesNode d = false) →
      extractText locs n = none) ∧
    extractText [.tagAttr "div" "data-testid" "title", .tagOnly "h3"] h3Card =
      some "Sea View Hotel" := by
  refine ⟨?_, ?_, by rfl⟩
  · intro locs n
    rw [extractText, chainFind_eq_findSome?]
  · intro locs n h
    rw [extractText, chainFind_eq_findSome?]
    have hnone : (locs.findSome? fun l => (descendants n).find? l.matchesNode) = none := by
      induction locs with
      | nil => rfl
      | cons l ls ih =>
        rw [List.findSome?_cons]
        have h1 : (descendants n).find? l.matchesNode = none :=
          List.find?_eq_none.mpr fun d hd => by
            simpa using h l (by simp) d hd
        rw [h1]
        exact ih fun l2 h2 => h l2 (by simp [h2])
    rw [hnone]
    rfl

/-- Witness for the absence case of C1: no locator for a `table` tag
matches anything in the example card. -/
theorem field_extractor_first_locator_witness :
    extractText [Locator.tagOnly "table"] h3Card = none :=
  field_extractor_first_locator.2.1 [Locator.tagOnly "table"] h3Card (by decide)

/-- C2 counterexample.  An item node whose designated required
field (the title) is absent but whose address field is present is NOT
dropped by the kaggle assembler: it is kept with the placeholder name,
refuting the claim that every assembler drops such items. -/
theorem required_field_policy_cex :
    kaggleField (.tagAttr "div" "data-testid" "title") card2 = "N/A" ∧
    extractText nameLocators card2 = none ∧
    assembleKaggle [card2] =
      [{ name := "N/A", location := "Calangute", price := "N/A", rating := "N/A" }] := by
  refine ⟨rfl, rfl, rfl⟩

/-- C2 as amended.  In booking_scraper a record is kept exactly
when its extracted name is truthy (present and nonempty): every kept
record has a truthy name, and every assembled record with a truthy name
is kept.  The kaggle loop keeps every item node unconditionally. -/
theorem required_field_policy_amended (cards : List Node) :
    (∀ h ∈ assembleBooking cards, pyTruthyOpt h.name = true) ∧
    (∀ ic ∈ cards.enum, pyTruthyOpt (mkHotelData (ic.1 + 1) ic.2).name = true →
      mkHotelData (ic.1 + 1) ic.2 ∈ assembleBooking cards) ∧
    (assembleKaggle cards).length = cards.length := by
  refine ⟨?_, ?_, by simp [assembleKaggle]⟩
  · intro h hmem
    rw [assembleBooking, List.mem_filterMap] at hmem
    obtain ⟨ic, _, heq⟩ := hmem
    by_cases ht : pyTruthyOpt (mkHotelData (ic.1 + 1) ic.2).name
    · simp only [ht, if_pos] at heq
      cases heq
      exact ht
    · simp [ht] at heq
  · intro ic hmem ht
    rw [assembleBooking, List.mem_filterMap]
    exact ⟨ic, hmem, by simp [ht]⟩

/-- Witness for C2 (amended): a card carrying a title is kept. -/
theorem required_field_policy_amended_witness :
    mkHotelData 1 card1 ∈ assembleBooking [card1] :=
  (required_field_policy_amended [card1]).2.1 (0, card1) (by simp [List.enum]) (by decide)

/-- C3 (confirmed).  The assembler output is a sublist of the
per-card records taken in document order (so no record is re-sorted),
the record ids are strictly increasing, and on the three-card document
whose second card lacks a title the output is exactly the two records
of cards one and three, in that order. -/
theorem assembler_output_order (cards : List Node) :
    (assembleBooking cards).Sublist
      (cards.enum.map fun ic => mkHotelData (ic.1 + 1) ic.2) ∧
    ((assembleBooking cards).map HotelData.id).Pairwise (· < ·) ∧
    ((runBooking threeCardDoc "u" "t").hotels.map fun h => (h.id, h.name)) =
      [(1, some "Hotel One"), (3, some "Hotel Three")] := by
  have hsub : (assembleBooking cards).Sublist
      (cards.enum.map fun ic => mkHotelData (ic.1 + 1) ic.2) := by
    rw [assembleBooking,
      filterMap_if_eq_filter_map (fun ic => mkHotelData (ic.1 + 1) ic.2)
        (fun h => pyTruthyOpt h.name) cards.enum]
    exact List.filter_sublist _
  refine ⟨hsub, ?_, by rfl⟩
  have hmaster : ((cards.enum.map fun ic => mkHotelData (ic.1 + 1) ic.2).map
      HotelData.id).Pairwise (· < ·) := by
    rw [List.map_map]
    have := pairwise_fst_lt_enumFrom 0 cards
    exact List.Pairwise.map _ (fun a b hab => Nat.succ_lt_succ hab) this
  exact List.Pairwise.sublist (List.Sublist.map HotelData.id hsub) hmaster

@[simp] theorem optStrJson_eq_iff (a b : Option String) :
    optStrJson a = optStrJson b ↔ a = b := by
  cases a <;> cases b <;> simp [optStrJson]

theorem map_str_inj : ∀ {xs ys : List String},
    xs.map Json.str = ys.map Json.str → xs = ys := by
  intro xs
  induction xs with
  | nil => intro ys h; cases ys <;> simp_all
  | cons x xs ih =>
    intro ys h
    cases ys with
    | nil => simp at h
    | cons y ys =>
      simp only [List.map_cons, List.cons.injEq, Json.str.injEq] at h
      exact by rw [h.1, ih h.2]

theorem hotelJson_inj {h1 h2 : HotelData} (heq : hotelJson h1 = hotelJson h2) :
    h1 = h2 := by
  cases h1
  cases h2
  simp only [hotelJson, Json.obj.injEq, List.cons.injEq, Prod.mk.injEq, true_and,
    and_true, Json.num.injEq, Json.arr.injEq, optStrJson_eq_iff, Int.natCast_inj] at heq
  obtain ⟨hid, hname, hprice, hrating, hrs, hrc, hloc, hdist, ham, himg, hlink⟩ := heq
  simp_all [map_str_inj ham]

/-- C4 (confirmed).  The serialized document of either scraper has
its keys in a fixed order with the metadata first and the record list
under the last key; the record array holds exactly the image of the
assembled records, and the per-record serialization is injective, so no
two distinct records collapse and none is dropped or reordered. -/
theorem sink_stable_key_order (r : ResultSet) (k : KaggleResult)
    (h1 h2 : HotelData) (heq : hotelJson h1 = hotelJson h2) :
    jsonKeys (serializeResult r) =
      ["page_title", "url", "total_hotels", "scraped_at", "hotels"] ∧
    jsonLookup (serializeResult r) "hotels" = some (.arr (r.hotels.map hotelJson)) ∧
    jsonKeys (serializeKaggle k) = ["search_url", "total_hotels", "scraped_at", "hotels"] ∧
    jsonLookup (serializeKaggle k) "hotels" = some (.arr (k.hotels.map kaggleHotelJson)) ∧
    h1 = h2 :=
  ⟨rfl, rfl, rfl, rfl, hotelJson_inj heq⟩

/-- Witness for C4 at a concrete run of the booking pipeline. -/
theorem sink_stable_key_order_witness :
    jsonKeys (serializeResult (runBooking threeCardDoc "u" "t")) =
      ["page_title", "url", "total_hotels", "scraped_at", "hotels"] :=
  (sink_stable_key_order (runBooking threeCardDoc "u" "t")
    (runKaggle threeCardDoc "u" "t") (mkHotelData 1 card1) (mkHotelData 1 card1) rfl).1

/-- C5 counterexample.  Two runs of the assembler over the very
same parsed document produce ResultSets that differ - and serialize to
different bytes - whenever the second run reads a different clock
value, because the `scraped_at` metadata field records the wall clock.
Byte-identity of reruns, as claimed, therefore fails. -/
theorem assembler_rerun_cex :
    runBooking emptyDoc "u" "2025-01-01 10:00:00" ≠
      runBooking emptyDoc "u" "2025-01-01 10:00:01" ∧
    renderJson 0 (serializeResult (runBooking emptyDoc "u" "2025-01-01 10:00:00")) ≠
      renderJson 0 (serializeResult (runBooking emptyDoc "u" "2025-01-01 10:00:01")) := by
  exact ⟨by decide, by decide⟩

/-- C5 as amended.  The assembler is deterministic in everything
but the clock: two runs on the same parsed document agree on the page
title, the url, the total count and the whole record list, and differ
at most in the `scraped_at` field.  In particular two runs that read
the same clock value are byte-identical. -/
theorem assembler_rerun_amended (doc : Node) (url t1 t2 : String) :
    runBooking doc url t1 = { runBooking doc url t2 with scraped_at := t1 } ∧
    runKaggle doc url t1 = { runKaggle doc url t2 with scraped_at := t1 } ∧
    renderJson 0 (serializeResult (runBooking doc url t1)) =
      renderJson 0 (serializeResult { runBooking doc url t2 with scraped_at := t1 }) :=
  ⟨rfl, rfl, rfl⟩

@[simp] theorem asOptStr_optStrJson (o : Option String) :
    asOptStr (optStrJson o) = some o := by
  cases o <;> rfl

@[simp] theorem asStrList_map_str (xs : List String) :
    asStrList (.arr (xs.map .str)) = some xs := by
  rw [asStrList]
  induction xs with
  | nil => rfl
  | cons x xs ih => simp only [List.map_cons, mapOption, asStr, ih, Option.bind_some]; rfl

theorem hotelFromJson_hotelJson (h : HotelData) :
    hotelFromJson (hotelJson h) = some h := by
  obtain ⟨id, name, price, rating, rs, rc, loc, dist, am, img, link⟩ := h
  rw [hotelJson, hotelFromJson]
  split
  · simp only [asOptStr_optStrJson, asStrList_map_str, Option.bind_some]
    rfl
  · exact absurd rfl (by assumption)

theorem hotelsFromJson_map (hs : List HotelData) :
    hotelsFromJson (.arr (hs.map hotelJson)) = some hs := by
  rw [hotelsFromJson]
  induction hs with
  | nil => rfl
  | cons h hs ih =>
    simp only [List.map_cons, mapOption, hotelFromJson_hotelJson, ih, Option.bind_some]
    rfl

/-- C6 (confirmed).  Reading back the serialized document of any
ResultSet returns the ResultSet unchanged: key order inside each record
and record order inside the list survive the trip. -/
theorem serialization_round_trip (r : ResultSet) :
    deserializeResult (serializeResult r) = some r := by
  obtain ⟨pt, url, tot, t, hs⟩ := r
  rw [serializeResult, deserializeResult]
  split
  · simp only [hotelsFromJson_map, Option.bind_some]
    rfl
  · exact absurd rfl (by assumption)

/-- C7 (confirmed).  When the geocoding step comes back with zero
results, get_weather_by_city returns `None`: no exception is raised (it
returns through the ok branch) and the current-weather request is never
issued (the request counter stays zero), whatever the weather endpoint
would have answered. -/
theorem weather_zero_results (env : WeatherEnv) (units : String)
    (hgeo : env.geoResp = .ok []) :
    get_weather_by_city env units = (.ok none, 0) := by
  obtain ⟨geo, w⟩ := env
  cases hgeo
  rfl

/-- Witness for C7 at a concrete environment. -/
theorem weather_zero_results_witness :
    get_weather_by_city ⟨.ok [], fun _ _ => .error .timeout⟩ "metric" = (.ok none, 0) :=
  weather_zero_results ⟨.ok [], fun _ _ => .error .timeout⟩ "metric" rfl

/-- C8 counterexample.  get_weather_by_city is an externally-facing
weather client method, yet with a geocoding hit and a 200 weather
response whose body is an empty JSON object it raises `KeyError` - the
`except` clause covers only the RequestException family - so the
exception propagates to the caller instead of a sentinel. -/
theorem boundary_swallow_cex :
    get_weather_by_city
        ⟨.ok [⟨some "Goa", some 15, some 73, some "IN", none⟩],
         fun _ _ => .ok (.obj [])⟩ "metric" =
      (.error (.keyError "name"), 1) := rfl

/-- C8 as amended.  scrape_booking_hotels swallows every exception at
its boundary and returns `None`.  TripAdvisorScraper.scrape_page has no
handler of its own: its fetch_page swallows exactly the request-layer
errors, and a failed fetch makes scrape_page return a dictionary whose
single key is an error message - a sentinel, but not `None` and not an
empty collection.  The weather client methods swallow exactly the
request-layer errors (returning the empty list or `None`); the JSON
loader swallows exactly the missing-file and malformed-JSON errors;
anything outside those families propagates, as the counterexample
shows. -/
theorem boundary_swallow_amended :
    (∀ code url t, scrape_booking_hotels (.httpError code) url t = none) ∧
    (∀ url t, scrape_booking_hotels .otherError url t = none) ∧
    (∀ e, fetch_page (.error e) = none) ∧
    (∀ lib e url t, scrape_page lib (.error e) url t =
      .obj [("error", .str "Failed to fetch page")]) ∧
    (∀ e, get_coordinates (.error e) = []) ∧
    (∀ e units, get_weather (.error e) units = .ok none) ∧
    load_json .fileNotFound = .ok none ∧
    load_json .invalidJson = .ok none :=
  ⟨fun _ _ _ => rfl, fun _ _ => rfl, fun _ => rfl, fun _ _ _ _ => rfl,
   fun _ => rfl, fun _ _ => rfl, rfl, rfl⟩

/-- C9 counterexample.  Not every request site carries a ten-second
timeout with a preceding fixed delay: the kaggle and airbnb scripts
issue their requests with no timeout argument and no sleep, and the
three weather requests have no preceding delay. -/
theorem request_discipline_cex :
    ¬ ∀ tr ∈ allRequestTraces, timeoutsOk tr = true ∧ delaysOk tr = true := by
  decide

/-- C9 as amended.  The booking, thrillophilia and tripadvisor
fetches sleep first and request with a ten-second timeout; the three
weather requests carry the ten-second timeout but are not preceded by
any delay; the kaggle and airbnb scripts request with neither timeout
nor delay. -/
theorem request_discipline_amended :
    (∀ tr ∈ [bookingSearchTrace, bookingDetailsTrace, thrillophiliaTrace,
        tripadvisorTrace], timeoutsOk tr = true ∧ delaysOk tr = true) ∧
    (∀ tr ∈ [weatherGeocodingTrace, weatherCurrentTrace, weatherForecastTrace],
        timeoutsOk tr = true ∧ delaysOk tr = false) ∧
    (∀ tr ∈ [kaggleTrace, airbnbTrace],
        hasUntimedRequest tr = true ∧ delaysOk tr = false) := by
  decide

/-- C10 (confirmed).  In every serialized ResultSet the scrapers
produce, the total-count metadata field - total_hotels in the booking
and kaggle documents, total_attractions in the thrillophilia document -
equals the length of the record array in the same document. -/
theorem total_count_matches (doc : Node) (url t : String) :
    jsonLookup (serializeResult (runBooking doc url t)) "total_hotels" =
      some (.num ((runBooking doc url t).hotels.length : Int)) ∧
    jsonLookup (serializeKaggle (runKaggle doc url t)) "total_hotels" =
      some (.num ((runKaggle doc url t).hotels.length : Int)) ∧
    jsonLookup (thrilloJsonData doc url t) "total_attractions" =
      some (.num (Int.ofNat (attractionsOf doc).length)) :=
  ⟨rfl, rfl, rfl⟩

end AccuraTraveller
